import Mathlib

/-!
Verification of the photoz deduplication pipeline (github.com/osintami/photoz).

The development shallowly embeds the Go sources:
  - src/common/imagefileinfo.go : the ImageFileInfo record, the EXIF
    timestamp extraction variant that formats RFC3339, the byte-signature
    classifier (FileSystem.IsImage), the skip filters and the MD5/copy
    primitives' observable behaviour;
  - src/unnamed/part_000        : the second ImageFileInfo variant with the
    zero-sentinel check and epoch-seconds formatting;
  - src/common/fastcache.go     : the JSON-string-valued FastCache store and
    the second orchestration entry point (its main);
  - src/main.go                 : the first orchestration entry point.

File contents are modelled as byte lists, the EXIF collaborator's output as
a value of ExifData, the durable store file as a value of DBFile.  The
iteration order of the Go map imageSignatures is unspecified, so the
classifier is parameterised by a table that is a permutation of the map's
entries.
-/

namespace Photoz

/-! ## Basic string helpers (Go stdlib behaviour used by the sources) -/

/-- ASCII lower-casing of one character, as used to model strings.EqualFold
on the pure-ASCII comparands appearing in the sources. -/
def asciiLower (c : Char) : Char :=
  if 'A' ≤ c ∧ c ≤ 'Z' then Char.ofNat (c.toNat + 32) else c

/-- Models strings.EqualFold for the ASCII extension/key comparisons done by
the sources (".NEF", ".HEIC" and the skip-extension keys are pure ASCII). -/
def foldEq (a b : String) : Bool :=
  a.data.map asciiLower = b.data.map asciiLower

/-- Models filepath.Ext: the suffix from the final dot of the last path
element; empty if there is no dot. -/
def goExtLoop : List Char → List Char → Option (List Char)
  | [], _ => none
  | c :: rest, acc =>
    if c = '/' then none
    else if c = '.' then some (c :: acc)
    else goExtLoop rest (c :: acc)

/-- filepath.Ext as used by IsNEF, IsHEIC, IgnoreByExtension and IsImage. -/
def goExt (p : String) : String :=
  match goExtLoop p.data.reverse [] with
  | some l => ⟨l⟩
  | none => ""

/-- Models filepath.Base: last element of the path, after trailing slashes
are removed; "." for the empty path, "/" for a path of only slashes. -/
def goBase (p : String) : String :=
  if p = "" then "."
  else
    let r := p.data.reverse.dropWhile (· = '/')
    let name := r.takeWhile (· ≠ '/')
    if name = [] then "/" else ⟨name.reverse⟩

/-- Decimal digit character. -/
def digitChar (n : Nat) : Char := Char.ofNat (48 + n)

/-- Decimal digits of a natural number, most significant first. -/
def natDigits (n : Nat) : List Char :=
  if _h : n < 10 then [digitChar n]
  else natDigits (n / 10) ++ [digitChar (n % 10)]
decreasing_by exact Nat.div_lt_self (by omega) (by decide)

/-- Decimal rendering of a Nat, as produced by Go formatting. -/
def natDecimal (n : Nat) : String := ⟨natDigits n⟩

/-- Decimal rendering of an Int, as produced by fmt.Sprintf with the decimal
verb (used for the epoch-seconds timestamp of src/unnamed/part_000). -/
def intDecimal (i : Int) : String :=
  if i < 0 then "-" ++ natDecimal i.natAbs else natDecimal i.toNat

/-- Zero-padded decimal of width w, as produced by Go time formatting. -/
def padDecimal (w n : Nat) : String :=
  ⟨List.replicate (w - (natDigits n).length) '0' ++ natDigits n⟩

/-- Removes the first NUL character of a string: models
strings.Replace(s, "\x00", "", 1) from src/unnamed/part_000. -/
def removeFirstNul : List Char → List Char
  | [] => []
  | c :: cs => if c = Char.ofNat 0 then cs else c :: removeFirstNul cs

/-- strings.Replace(s, "\x00", "", 1). -/
def stripFirstNul (s : String) : String := ⟨removeFirstNul s.data⟩

/-! ## Go time.Parse for the layout used by both GetJpegCreatedAt variants -/

/-- A wall-clock value successfully parsed by Go time.Parse with layout
2006:01:02 15:04:05 (always interpreted in UTC). -/
structure GoDateTime where
  year : Nat
  month : Nat
  day : Nat
  hour : Nat
  minute : Nat
  second : Nat
deriving Repr, DecidableEq

/-- Go time.isLeap. -/
def isLeapYear (y : Nat) : Bool :=
  y % 4 = 0 && (y % 100 ≠ 0 || y % 400 = 0)

/-- Go time.daysIn: number of days of a month. -/
def daysIn (m y : Nat) : Nat :=
  if m = 2 then (if isLeapYear y then 29 else 28)
  else if m = 4 ∨ m = 6 ∨ m = 9 ∨ m = 11 then 30
  else 31

/-- Is the character an ASCII digit. -/
def isDig (c : Char) : Bool := '0' ≤ c && c ≤ '9'

/-- Numeric value of an ASCII digit. -/
def dval (c : Char) : Nat := c.toNat - 48

/-- The range checks Go time.Parse performs after reading the fields:
month 1..12, day 1..daysIn, hour below 24, minute and second below 60. -/
def mkDateTime (y mo d h mi s : Nat) : Option GoDateTime :=
  if 1 ≤ mo ∧ mo ≤ 12 ∧ 1 ≤ d ∧ d ≤ daysIn mo y ∧ h < 24 ∧ mi < 60 ∧ s < 60
  then some ⟨y, mo, d, h, mi, s⟩ else none

/-- Go time.Parse with layout 2006:01:02 15:04:05: a four-digit year,
two-digit month, day, minute and second, a one- or two-digit hour, the
literal separators, and the range checks of mkDateTime.  Returns none where
Go returns a parse error. -/
def goTimeParse (s : String) : Option GoDateTime :=
  match s.data with
  | [y1, y2, y3, y4, c1, m1, m2, c2, d1, d2, c3, h1, h2, c4, i1, i2, c5, s1, s2] =>
    if c1 = ':' && c2 = ':' && c3 = ' ' && c4 = ':' && c5 = ':' &&
       isDig y1 && isDig y2 && isDig y3 && isDig y4 && isDig m1 && isDig m2 &&
       isDig d1 && isDig d2 && isDig h1 && isDig h2 && isDig i1 && isDig i2 &&
       isDig s1 && isDig s2
    then mkDateTime (1000 * dval y1 + 100 * dval y2 + 10 * dval y3 + dval y4)
        (10 * dval m1 + dval m2) (10 * dval d1 + dval d2)
        (10 * dval h1 + dval h2) (10 * dval i1 + dval i2) (10 * dval s1 + dval s2)
    else none
  | [y1, y2, y3, y4, c1, m1, m2, c2, d1, d2, c3, h1, c4, i1, i2, c5, s1, s2] =>
    if c1 = ':' && c2 = ':' && c3 = ' ' && c4 = ':' && c5 = ':' &&
       isDig y1 && isDig y2 && isDig y3 && isDig y4 && isDig m1 && isDig m2 &&
       isDig d1 && isDig d2 && isDig h1 && isDig i1 && isDig i2 &&
       isDig s1 && isDig s2
    then mkDateTime (1000 * dval y1 + 100 * dval y2 + 10 * dval y3 + dval y4)
        (10 * dval m1 + dval m2) (10 * dval d1 + dval d2)
        (dval h1) (10 * dval i1 + dval i2) (10 * dval s1 + dval s2)
    else none
  | _ => none

/-- Days since 1970-01-01 of a civil date (proleptic Gregorian), the
computation underlying Go Time.Unix. -/
def civilDays (y m d : Int) : Int :=
  let y2 := if m ≤ 2 then y - 1 else y
  let era := Int.fdiv y2 400
  let yoe := y2 - era * 400
  let mp := if m > 2 then m - 3 else m + 9
  let doy := Int.fdiv (153 * mp + 2) 5 + d - 1
  let doe := yoe * 365 + Int.fdiv yoe 4 - Int.fdiv yoe 100 + doy
  era * 146097 + doe - 719468

/-- Go Time.Unix of a parsed (UTC) wall-clock value. -/
def unixSeconds (t : GoDateTime) : Int :=
  civilDays t.year t.month t.day * 86400 + t.hour * 3600 + t.minute * 60 + t.second

/-- Go Time.Format(time.RFC3339) for a UTC value parsed by goTimeParse. -/
def rfc3339 (t : GoDateTime) : String :=
  padDecimal 4 t.year ++ "-" ++ padDecimal 2 t.month ++ "-" ++ padDecimal 2 t.day ++ "T" ++
  padDecimal 2 t.hour ++ ":" ++ padDecimal 2 t.minute ++ ":" ++ padDecimal 2 t.second ++ "Z"

/-! ## Data model: ImageFileInfo (identical struct in src/common/imagefileinfo.go
and src/unnamed/part_000) -/

/-- Two's-complement wrap of a Go int32: the value an int32 holds after an
arithmetic step, in the range -2147483648 to 2147483647. -/
def wrap32 (n : Int) : Int := (n + 2147483648) % 4294967296 - 2147483648

/-- The counter step the statement fi.Duplicates++ performs on the int32
field: increment with two's-complement wrap. -/
def incDuplicates (d : Int) : Int := wrap32 (d + 1)

/-- The persisted per-fingerprint record.  Duplicates is int32 in Go; it is
modelled as an Int carrying int32-range values, and the one arithmetic step
performed on it (fi.Duplicates++ in both entry points) applies the explicit
two's-complement wrap wrap32. -/
structure ImageFileInfo where
  FilePath : String
  MimeType : String
  MD5 : String
  FileName : String
  OriginalDateTime : String
  Duplicates : Int
  HasExif : Bool
deriving Repr, DecidableEq

/-- NewImageFileInfo: all other fields keep the Go zero values. -/
def NewImageFileInfo (filePath mimeType md5 : String) : ImageFileInfo :=
  { FilePath := filePath, MimeType := mimeType, MD5 := md5,
    FileName := "", OriginalDateTime := "", Duplicates := 0, HasExif := false }

/-- The Go zero value common.ImageFileInfo\x7b\x7d passed to FastCache.Get. -/
def zeroImageFileInfo : ImageFileInfo := NewImageFileInfo "" "" ""

/-- ImageFileInfo.IsJPEG. -/
def ImageFileInfo.IsJPEG (x : ImageFileInfo) : Bool := x.MimeType = "image/jpeg"

/-- ImageFileInfo.IsNEF: returns whether the path extension folds to ".NEF"
and the record after the method's side effect on MimeType. -/
def ImageFileInfo.IsNEF (x : ImageFileInfo) : Bool × ImageFileInfo :=
  let isNEF := foldEq (goExt x.FilePath) ".NEF"
  (isNEF, if isNEF then { x with MimeType := "image/nef" } else x)

/-- ImageFileInfo.IsHEIC: extension folds to ".HEIC"; side effect on MimeType. -/
def ImageFileInfo.IsHEIC (x : ImageFileInfo) : Bool × ImageFileInfo :=
  let isHEIC := foldEq (goExt x.FilePath) ".HEIC"
  (isHEIC, if isHEIC then { x with MimeType := "image/heic" } else x)

/-! ## EXIF collaborator and the two GetJpegCreatedAt variants -/

/-- Output of the go-exif collaborator for one file: the extraction step can
fail (no EXIF block), the parse step can fail (corrupt block), otherwise it
yields the flat (tagName, value) pairs. -/
inductive ExifData
  | missing
  | corrupt
  | tags (ts : List (String × String))
deriving Repr

/-- The error outcomes of the two GetJpegCreatedAt variants. -/
inductive ExifErr
  | extractFailed
  | parseFailed
  | tagEmpty
  | noTag
  | timeParseFailed
deriving Repr, DecidableEq

/-- The two capture-time tag spellings both variants scan for. -/
def isDateTag (n : String) : Bool := n = "DateTimeOriginal" || n = "Create Date"

/-- The all-zeros sentinel rejected by src/unnamed/part_000. -/
def zeroSentinel : String := "0000:00:00 00:00:00"

/-- The tag loop of src/unnamed/part_000 GetJpegCreatedAt: each matching tag
value has its first NUL stripped, the zero sentinel aborts with an error,
otherwise the last matching value wins; no matching tag at all is an error
after the loop. -/
def scanTags : List (String × String) → String → Except ExifErr String
  | [], acc => if acc = "" then .error .noTag else .ok acc
  | (n, v) :: rest, acc =>
    if isDateTag n then
      let e := stripFirstNul v
      if e = zeroSentinel then .error .tagEmpty
      else scanTags rest e
    else scanTags rest acc

namespace Part000

/-- GetJpegCreatedAt of src/unnamed/part_000 (lines 33-85): scans the tags,
rejects the zero sentinel, parses the wire format and stores the epoch
seconds; returns the record after the call and the error if any (the record
is unchanged on every error path). -/
def GetJpegCreatedAt (x : ImageFileInfo) (exif : ExifData) : ImageFileInfo × Option ExifErr :=
  match exif with
  | .missing => (x, some .extractFailed)
  | .corrupt => (x, some .parseFailed)
  | .tags ts =>
    match scanTags ts "" with
    | .error e => (x, some e)
    | .ok t =>
      match goTimeParse t with
      | none => (x, some .timeParseFailed)
      | some dt => ({ x with OriginalDateTime := intDecimal (unixSeconds dt) }, none)

/-- SetFileName of src/unnamed/part_000 (lines 87-93): timestamp-prefixed
name, or the verbatim fallback token "0000000000" when no timestamp is set. -/
def SetFileName (x : ImageFileInfo) : ImageFileInfo :=
  if x.OriginalDateTime ≠ "" then
    { x with FileName := x.OriginalDateTime ++ "_" ++ x.MD5 ++ "_" ++ goBase x.FilePath }
  else
    { x with FileName := "0000000000" ++ "_" ++ x.MD5 ++ "_" ++ goBase x.FilePath }

end Part000

/-- The last-matching-tag-wins accumulation of src/common/imagefileinfo.go
GetJpegCreatedAt (no NUL stripping, no sentinel check there). -/
def lastDateTag (ts : List (String × String)) : String :=
  ts.foldl (fun acc t => if isDateTag t.1 then t.2 else acc) ""

namespace Common

/-- GetJpegCreatedAt of src/common/imagefileinfo.go (lines 32-72): the last
matching tag value is parsed directly; an absent tag leaves the empty string
to the parser, which fails; on success the RFC3339 rendering is stored. -/
def GetJpegCreatedAt (x : ImageFileInfo) (exif : ExifData) : ImageFileInfo × Option ExifErr :=
  match exif with
  | .missing => (x, some .extractFailed)
  | .corrupt => (x, some .parseFailed)
  | .tags ts =>
    match goTimeParse (lastDateTag ts) with
    | none => (x, some .timeParseFailed)
    | some dt => ({ x with OriginalDateTime := rfc3339 dt }, none)

/-- SetFileName of src/common/imagefileinfo.go (lines 74-80): fallback token
is "unknown" in this variant. -/
def SetFileName (x : ImageFileInfo) : ImageFileInfo :=
  if x.OriginalDateTime ≠ "" then
    { x with FileName := x.OriginalDateTime ++ "_" ++ x.MD5 ++ "_" ++ goBase x.FilePath }
  else
    { x with FileName := "unknown" ++ "_" ++ x.MD5 ++ "_" ++ goBase x.FilePath }

end Common

/-! ## Name filters and signature classifier (src/common/imagefileinfo.go,
FileSystem part, lines 120-242 of the file) -/

/-- FileSystem.IgnoreByName: base name starting with the Apple sidecar
marker. -/
def IgnoreByName (filePath : String) : Bool × String :=
  let name := goBase filePath
  if "._".data.isPrefixOf name.data then (true, name) else (false, "")

/-- The skipExtensions table, in source order.  Note the final key has no
leading dot in the source, exactly as written there. -/
def skipExtensions : List (String × String) :=
  [(".html", "html"), (".htm", "htm"), (".doc", "doc"), (".db", "db"),
   (".jbf", "jbf"), (".dot", "dot"), (".txt", "txt"), (".class", "class"),
   (".pdd", "pdd"), (".xls", "xls"), (".eml", "eml"), (".wab", "wab"),
   (".ptn", "ptn"), (".dmf", "dmf"), (".log", "log"), (".ds_store", "ds_store"),
   (".ps", "ps"), (".mp3", "mp3"), (".svn-base", "svn"), (".gz", "gzip"),
   (".java", "java"), (".xml", "xml"), (".jar", "jar"), (".test", "test"),
   (".css", "css"), (".exe", "exe"), (".deb", "deb"), (".zip", "zip"),
   (".lisj", "lisj"), (".lij", "lij"), (".plist", "plist"), (".bak", "bak"),
   (".wav", "wav"), (".xmp", "xmp"), (".rtf", "rtf"), (".json", "json"),
   ("mjpg", "mjpg")]

/-- FileSystem.IgnoreByExtension: case-insensitive lookup of the path
extension in skipExtensions.  The keys are pairwise non-fold-equal, so the
Go map's iteration order cannot change the outcome. -/
def IgnoreByExtension (filePath : String) : Bool × String :=
  let suffix := goExt filePath
  match skipExtensions.find? (fun e => foldEq suffix e.1) with
  | some e => (true, e.2)
  | none => (false, "")

/-- The imageSignatures map entries, listed in source order (the Go map
itself is unordered; the classifier below takes any permutation). -/
def imageSignatures : List (List Nat × String) :=
  [([0x66, 0x74, 0x79, 0x70, 0x69, 0x73, 0x6F, 0x6D], "video/mp4"),
   ([0x66, 0x74, 0x79, 0x70, 0x4D, 0x53, 0x4E, 0x56], "video/mp4"),
   ([0xFF, 0xD8, 0xFF], "image/jpeg"),
   ([0x47, 0x49, 0x46, 0x38, 0x37, 0x61], "image/gif"),
   ([0x47, 0x49, 0x46, 0x38, 0x39, 0x61], "image/gif"),
   ([0x42, 0x4D], "image/bmp"),
   ([0x49, 0x49, 0x2A, 0x00], "image/tiff"),
   ([0x4D, 0x4D, 0x00, 0x2A], "image/tiff"),
   ([0x52, 0x49, 0x46, 0x46, 0x2E, 0x2E, 0x2E, 0x2E, 0x57, 0x45, 0x42, 0x50], "image/webp"),
   ([0x52, 0x49, 0x46, 0x46], "video/x-msvideo"),
   ([0x7B, 0x5C, 0x72, 0x74, 0x66, 0x31], "application/rtf"),
   ([0x49, 0x44, 0x33], "audio/mpeg"),
   ([0x00, 0x00, 0x00, 0x28, 0x66, 0x74, 0x79, 0x70, 0x68, 0x65, 0x69, 0x63], "image/heic"),
   ([0x89, 0x50, 0x4E, 0x47, 0x0D, 0x0A, 0x1A, 0x0A], "image/png")]

/-- The eight PNG signature bytes (shared with NEF). -/
def pngSignature : List Nat := [0x89, 0x50, 0x4E, 0x47, 0x0D, 0x0A, 0x1A, 0x0A]

/-- The outcome of opening and reading the 32-byte probe: the file bytes, or
an open failure, or a read failure that is neither EOF nor a short read
(EOF and short reads leave the zero-filled buffer, modelled by pad32). -/
inductive FileRead
  | content (bytes : List Nat)
  | openError
  | readError
deriving Repr

/-- The 32-byte probe buffer io.ReadFull leaves: the leading file bytes
followed by the zero bytes make([]byte, 32) initialised. -/
def pad32 (c : List Nat) : List Nat :=
  c.take 32 ++ List.replicate (32 - c.length) 0

/-- Result of FileSystem.IsImage: (bool, string, error) collapsed to a sum. -/
inductive ClassifyResult
  | err
  | ok (recognized : Bool) (mime : String)
deriving Repr, DecidableEq

/-- FileSystem.IsImage (lines 213-242): probes the first 32 bytes, scans the
signature table in the given iteration order, and applies the PNG/NEF
extension tiebreak to a PNG match.  Read failures other than EOF and short
reads surface as errors. -/
def IsImage (table : List (List Nat × String)) (filePath : String) (fr : FileRead) :
    ClassifyResult :=
  match fr with
  | .openError => .err
  | .readError => .err
  | .content bytes =>
    let buffer := pad32 bytes
    match table.find? (fun e => e.1.isPrefixOf buffer) with
    | some e =>
      let mime := e.2
      let mime :=
        if mime = "image/png" then
          (if foldEq (goExt filePath) ".NEF" then "image/nef" else mime)
        else mime
      .ok true mime
    | none => .ok false ""

/-- Is some signature of the table a prefix of the probe buffer for c. -/
def recognizedBy (table : List (List Nat × String)) (c : List Nat) : Bool :=
  (table.find? (fun e => e.1.isPrefixOf (pad32 c))).isSome

/-! ## FastCache (src/common/fastcache.go) -/

/-- A marshalled Go value, as produced by encoding/json.  The cache stores
the marshalled form of each record. -/
inductive GoJson
  | str (s : String)
  | num (n : Int)
  | bool (b : Bool)
  | obj (fields : List (String × GoJson))

/-- json.Marshal of an ImageFileInfo, with the struct tags of the source. -/
def encodeImageFileInfo (x : ImageFileInfo) : GoJson :=
  .obj [("filepath", .str x.FilePath), ("mimetype", .str x.MimeType),
        ("md5", .str x.MD5), ("filename", .str x.FileName),
        ("originaldatetime", .str x.OriginalDateTime),
        ("duplicates", .num x.Duplicates), ("hasexif", .bool x.HasExif)]

/-- Field lookup in a marshalled object. -/
def jsonField : List (String × GoJson) → String → Option GoJson
  | [], _ => none
  | f :: rest, k => if f.1 = k then some f.2 else jsonField rest k

/-- Unmarshal a string field: an absent field keeps the target's value, a
non-string value is a type error. -/
def strField (fs : List (String × GoJson)) (k d : String) : Option String :=
  match jsonField fs k with
  | none => some d
  | some (.str s) => some s
  | some _ => none

/-- Unmarshal a numeric field. -/
def numField (fs : List (String × GoJson)) (k : String) (d : Int) : Option Int :=
  match jsonField fs k with
  | none => some d
  | some (.num n) => some n
  | some _ => none

/-- Unmarshal a boolean field. -/
def boolField (fs : List (String × GoJson)) (k : String) (d : Bool) : Option Bool :=
  match jsonField fs k with
  | none => some d
  | some (.bool b) => some b
  | some _ => none

/-- json.Unmarshal of a marshalled value into an existing record obj (the
call sites pass the zero record). -/
def decodeInto (obj : ImageFileInfo) (j : GoJson) : Option ImageFileInfo :=
  match j with
  | .obj fs => do
    let filepath ← strField fs "filepath" obj.FilePath
    let mimetype ← strField fs "mimetype" obj.MimeType
    let md5 ← strField fs "md5" obj.MD5
    let filename ← strField fs "filename" obj.FileName
    let odt ← strField fs "originaldatetime" obj.OriginalDateTime
    let dups ← numField fs "duplicates" obj.Duplicates
    let hasexif ← boolField fs "hasexif" obj.HasExif
    pure { FilePath := filepath, MimeType := mimetype, MD5 := md5,
           FileName := filename, OriginalDateTime := odt,
           Duplicates := dups, HasExif := hasexif }
  | _ => none

/-- The FastCache of src/common/fastcache.go: the go-cache item map, keyed by
fingerprint, holding marshalled records, plus the durable file name. -/
structure FastCache where
  persistFile : String
  items : List (String × GoJson)

/-- Item lookup of the backing go-cache. -/
def lookupItems : List (String × GoJson) → String → Option GoJson
  | [], _ => none
  | e :: rest, k => if e.1 = k then some e.2 else lookupItems rest k

/-- Item insertion or replacement of the backing go-cache. -/
def setItems : List (String × GoJson) → String → GoJson → List (String × GoJson)
  | [], k, v => [(k, v)]
  | e :: rest, k, v => if e.1 = k then (k, v) :: rest else e :: setItems rest k v

/-- FastCache.Get (lines 40-51): cache lookup, then unmarshal into obj; an
unmarshal failure is reported as not found. -/
def FastCache.Get (x : FastCache) (key : String) (obj : ImageFileInfo) :
    Option ImageFileInfo :=
  match lookupItems x.items key with
  | none => none
  | some j => decodeInto obj j

/-- FastCache.Set (lines 53-60): marshal then store.  Every call site passes
duration -1 (go-cache NoExpiration) and no time passes inside a run, so the
duration has no observable effect here. -/
def FastCache.Set (x : FastCache) (key : String) (value : ImageFileInfo)
    (_duration : Int) : FastCache :=
  { x with items := setItems x.items key (encodeImageFileInfo value) }

/-- The durable store file: absent, unreadable by gob, or the serialized
item map. -/
inductive DBFile
  | missing
  | malformed
  | wellformed (items : List (String × GoJson))

/-- The error go-cache LoadFile reports. -/
inductive LoadErr
  | notExist
  | decodeFailed
deriving Repr, DecidableEq

/-- go-cache LoadFile into a fresh cache: os.Open fails with a not-exist
error for a missing file; gob decoding of a malformed file fails, loading
nothing; otherwise the whole item map is loaded. -/
def cacheLoadFile (f : DBFile) : List (String × GoJson) × Option LoadErr :=
  match f with
  | .missing => ([], some .notExist)
  | .malformed => ([], some .decodeFailed)
  | .wellformed its => (its, none)

/-- NewPersistentCache (lines 33-38): a fresh cache plus the LoadFile error. -/
def NewPersistentCache (persistFile : String) (f : DBFile) : FastCache × Option LoadErr :=
  ({ persistFile := persistFile, items := (cacheLoadFile f).1 }, (cacheLoadFile f).2)

/-- FastCache.Persist (lines 71-73): go-cache SaveFile gob-encodes the item
map; the value is the durable file it writes. -/
def FastCache.Persist (x : FastCache) : DBFile := .wellformed x.items

/-- The initialisation gate of both entry points (src/main.go lines 69-74):
the run is aborted only when the load error exists and is not a
not-exist error. -/
def initDBFailed (err : Option LoadErr) : Bool :=
  match err with
  | some .decodeFailed => true
  | _ => false

/-! ## Orchestration (src/main.go and the second main inside
src/common/fastcache.go, lines 133-302 of the file) -/

/-- The short-circuit test fi.IsJPEG() or fi.IsNEF() or fi.IsHEIC() of both
entry points, with the IsNEF/IsHEIC side effects on MimeType. -/
def checkMetaTypes (fi : ImageFileInfo) : Bool × ImageFileInfo :=
  if fi.IsJPEG then (true, fi)
  else
    let r := fi.IsNEF
    if r.1 then (true, r.2)
    else r.2.IsHEIC

/-- Output-name derivation of the second entry point (fastcache.go lines
258-270): the EXIF outcome only sets HasExif, and SetFileName of
src/unnamed/part_000 always derives the name. -/
def main2Naming (fi : ImageFileInfo) (exif : ExifData) : String × ImageFileInfo :=
  let r := checkMetaTypes fi
  let fi1 :=
    if r.1 then
      let g := Part000.GetJpegCreatedAt r.2 exif
      if g.2 = none then { g.1 with HasExif := true } else { g.1 with HasExif := false }
    else r.2
  let fi2 := Part000.SetFileName fi1
  (fi2.FileName, fi2)

/-- Output-name derivation of src/main.go (lines 122-142): on a successful
EXIF extraction SetFileName of src/common/imagefileinfo.go runs; on failure
a NEF aborts the run fatally (result none) and every other recognized file
gets fingerprint-underscore-basename with no fallback token. -/
def main1Naming (fi : ImageFileInfo) (exif : ExifData) : Option (String × ImageFileInfo) :=
  let r := checkMetaTypes fi
  if r.1 then
    let g := Common.GetJpegCreatedAt r.2 exif
    match g.2 with
    | none =>
      let fi1 := Common.SetFileName g.1
      let fi2 := { fi1 with HasExif := true }
      some (fi2.FileName, fi2)
    | some _ =>
      let n := g.1.IsNEF
      if n.1 then none
      else some (n.2.MD5 ++ "_" ++ goBase n.2.FilePath, n.2)
  else some (r.2.MD5 ++ "_" ++ goBase r.2.FilePath, r.2)

/-- The observable state of a run: the store and the CopyFile calls made so
far (source path, destination path). -/
structure WalkState where
  db : FastCache
  copies : List (String × String)

/-- One non-directory step of the filepath.Walk body of the second entry
point (fastcache.go lines 217-284; the Get, duplicate-increment and Set
logic is line-for-line the same in src/main.go lines 88-153).  The file is
given as (path, bytes), the hash h models crypto/md5 over the bytes, and
exifOf models the go-exif collaborator on the same bytes. -/
def processFile (h : List Nat → String) (exifOf : List Nat → ExifData)
    (table : List (List Nat × String)) (outPath : String)
    (st : WalkState) (file : String × List Nat) : WalkState :=
  if (IgnoreByName file.1).1 then st
  else if (IgnoreByExtension file.1).1 then st
  else
    match IsImage table file.1 (.content file.2) with
    | .err => st
    | .ok false _ => st
    | .ok true mimeType =>
      let md5 := h file.2
      match FastCache.Get st.db md5 zeroImageFileInfo with
      | some fi =>
        { st with db := (FastCache.Set st.db md5
            { fi with Duplicates := wrap32 (fi.Duplicates + 1) } (-1)) }
      | none =>
        let fi := NewImageFileInfo file.1 mimeType md5
        let r := main2Naming fi (exifOf file.2)
        { db := FastCache.Set st.db md5 r.2 (-1),
          copies := st.copies ++ [(file.1, outPath ++ "/" ++ r.1)] }

/-- The signature table of the counterexample runs: the source list with the
two RIFF-prefixed entries transposed, one of the orders a Go map range may
produce. -/
def imageSignaturesSwapped : List (List Nat × String) :=
  [([0x66, 0x74, 0x79, 0x70, 0x69, 0x73, 0x6F, 0x6D], "video/mp4"),
   ([0x66, 0x74, 0x79, 0x70, 0x4D, 0x53, 0x4E, 0x56], "video/mp4"),
   ([0xFF, 0xD8, 0xFF], "image/jpeg"),
   ([0x47, 0x49, 0x46, 0x38, 0x37, 0x61], "image/gif"),
   ([0x47, 0x49, 0x46, 0x38, 0x39, 0x61], "image/gif"),
   ([0x42, 0x4D], "image/bmp"),
   ([0x49, 0x49, 0x2A, 0x00], "image/tiff"),
   ([0x4D, 0x4D, 0x00, 0x2A], "image/tiff"),
   ([0x52, 0x49, 0x46, 0x46], "video/x-msvideo"),
   ([0x52, 0x49, 0x46, 0x46, 0x2E, 0x2E, 0x2E, 0x2E, 0x57, 0x45, 0x42, 0x50], "image/webp"),
   ([0x7B, 0x5C, 0x72, 0x74, 0x66, 0x31], "application/rtf"),
   ([0x49, 0x44, 0x33], "audio/mpeg"),
   ([0x00, 0x00, 0x00, 0x28, 0x66, 0x74, 0x79, 0x70, 0x68, 0x65, 0x69, 0x63], "image/heic"),
   ([0x89, 0x50, 0x4E, 0x47, 0x0D, 0x0A, 0x1A, 0x0A], "image/png")]

/-! ## Helper lemmas -/

theorem natDigits_ne_nil (n : Nat) : natDigits n ≠ [] := by
  unfold natDigits
  split
  · simp
  · simp

theorem natDecimal_ne_empty (n : Nat) : natDecimal n ≠ "" := by
  intro h
  exact natDigits_ne_nil n (by simpa [natDecimal, String.ext_iff] using h)

theorem intDecimal_ne_empty (i : Int) : intDecimal i ≠ "" := by
  unfold intDecimal
  split
  · intro h
    simp [String.ext_iff] at h
  · exact natDecimal_ne_empty _

theorem rfc3339_ne_empty (t : GoDateTime) : rfc3339 t ≠ "" := by
  intro h
  simp [rfc3339, String.ext_iff] at h

/-- Unmarshalling a marshalled record recovers it, whatever the target
record holds. -/
theorem decodeInto_encode (obj x : ImageFileInfo) :
    decodeInto obj (encodeImageFileInfo x) = some x := rfl

theorem lookupItems_setItems_self (l : List (String × GoJson)) (k : String) (v : GoJson) :
    lookupItems (setItems l k v) k = some v := by
  induction l with
  | nil => simp [setItems, lookupItems]
  | cons e rest ih =>
    by_cases h : e.1 = k
    · simp [setItems, lookupItems, h]
    · simp [setItems, lookupItems, h, ih]

theorem lookupItems_setItems_ne (l : List (String × GoJson)) (k k' : String) (v : GoJson)
    (h : k' ≠ k) : lookupItems (setItems l k v) k' = lookupItems l k' := by
  induction l with
  | nil => simp [setItems, lookupItems, Ne.symm h]
  | cons e rest ih =>
    by_cases he : e.1 = k
    · subst he
      simp only [setItems, if_pos rfl]
      simp [lookupItems, Ne.symm h]
    · simp only [setItems, if_neg he]
      simp [lookupItems, ih]

/-- find? returns the unique satisfying element, in any list containing it. -/
theorem find?_eq_of_unique {α : Type} {p : α → Bool} {l : List α} {a : α}
    (ha : a ∈ l) (hpa : p a = true) (hu : ∀ b ∈ l, p b = true → b = a) :
    l.find? p = some a := by
  induction l with
  | nil => cases ha
  | cons x xs ih =>
    by_cases hx : p x = true
    · have hxa : x = a := hu x (List.mem_cons_self x xs) hx
      subst hxa
      exact List.find?_cons_of_pos xs hx
    · rw [List.find?_cons_of_neg xs (by simpa using hx)]
      have hax : a ∈ xs := by
        rcases List.mem_cons.mp ha with h | h
        · exact absurd (h ▸ hpa) hx
        · exact h
      exact ih hax (fun b hb hpb => hu b (List.mem_cons_of_mem x hb) hpb)

theorem eq_append_of_isPrefixOf {l c : List Nat} (h : l.isPrefixOf c = true) :
    ∃ t, c = l ++ t := by
  induction l generalizing c with
  | nil => exact ⟨c, rfl⟩
  | cons a as ih =>
    cases c with
    | nil => simp [List.isPrefixOf] at h
    | cons b bs =>
      simp only [List.isPrefixOf, Bool.and_eq_true, beq_iff_eq] at h
      obtain ⟨t, rfl⟩ := ih h.2
      exact ⟨t, by simp [h.1]⟩

theorem isPrefixOf_append (l t : List Nat) : l.isPrefixOf (l ++ t) = true := by
  induction l with
  | nil => simp [List.isPrefixOf]
  | cons a as ih => simp [List.isPrefixOf, ih]

/-- Recognition does not depend on the iteration order of the signature
table. -/
theorem recognizedBy_perm {t1 t2 : List (List Nat × String)} (hp : t1.Perm t2)
    (c : List Nat) : recognizedBy t1 c = recognizedBy t2 c := by
  unfold recognizedBy
  apply Bool.eq_iff_iff.mpr
  rw [List.find?_isSome, List.find?_isSome]
  constructor
  · rintro ⟨x, hx, hpx⟩
    exact ⟨x, hp.mem_iff.mp hx, hpx⟩
  · rintro ⟨x, hx, hpx⟩
    exact ⟨x, hp.mem_iff.mpr hx, hpx⟩

/-- A recognized content classifies as ok-true with some MIME type, for any
path. -/
theorem IsImage_recognized (table : List (List Nat × String)) (p : String) (c : List Nat)
    (hr : recognizedBy table c = true) :
    ∃ mime, IsImage table p (.content c) = .ok true mime := by
  unfold recognizedBy at hr
  rcases hfind : table.find? (fun e => e.1.isPrefixOf (pad32 c)) with _ | e
  · simp [hfind] at hr
  · refine ⟨if e.2 = "image/png" then
        (if foldEq (goExt p) ".NEF" then "image/nef" else e.2) else e.2, ?_⟩
    simp only [IsImage, hfind]


/-- The type checks only touch MimeType. -/
theorem checkMetaTypes_fields (fi : ImageFileInfo) :
    (checkMetaTypes fi).2.FilePath = fi.FilePath ∧
    (checkMetaTypes fi).2.MD5 = fi.MD5 ∧
    (checkMetaTypes fi).2.FileName = fi.FileName ∧
    (checkMetaTypes fi).2.OriginalDateTime = fi.OriginalDateTime ∧
    (checkMetaTypes fi).2.Duplicates = fi.Duplicates ∧
    (checkMetaTypes fi).2.HasExif = fi.HasExif := by
  simp only [checkMetaTypes, ImageFileInfo.IsNEF, ImageFileInfo.IsHEIC]
  split_ifs <;> simp

/-- GetJpegCreatedAt of src/unnamed/part_000 touches only OriginalDateTime. -/
theorem part000_get_fields (x : ImageFileInfo) (e : ExifData) :
    (Part000.GetJpegCreatedAt x e).1.FilePath = x.FilePath ∧
    (Part000.GetJpegCreatedAt x e).1.MimeType = x.MimeType ∧
    (Part000.GetJpegCreatedAt x e).1.MD5 = x.MD5 ∧
    (Part000.GetJpegCreatedAt x e).1.FileName = x.FileName ∧
    (Part000.GetJpegCreatedAt x e).1.Duplicates = x.Duplicates ∧
    (Part000.GetJpegCreatedAt x e).1.HasExif = x.HasExif := by
  unfold Part000.GetJpegCreatedAt
  cases e with
  | missing => simp
  | corrupt => simp
  | tags ts =>
    simp only []
    split
    · simp
    · split <;> simp

/-- On an error the record of src/unnamed/part_000 GetJpegCreatedAt is
returned unchanged. -/
theorem part000_get_err (x : ImageFileInfo) (e : ExifData) (err : ExifErr)
    (h : (Part000.GetJpegCreatedAt x e).2 = some err) :
    (Part000.GetJpegCreatedAt x e).1 = x := by
  unfold Part000.GetJpegCreatedAt at *
  cases e with
  | missing => rfl
  | corrupt => rfl
  | tags ts =>
    simp only [] at h ⊢
    split at h
    · simp_all
    · split at h
      · simp_all
      · simp_all

/-- On success the record of src/unnamed/part_000 GetJpegCreatedAt carries a
nonempty OriginalDateTime (the epoch-seconds decimal). -/
theorem part000_get_ok (x : ImageFileInfo) (e : ExifData)
    (h : (Part000.GetJpegCreatedAt x e).2 = none) :
    (Part000.GetJpegCreatedAt x e).1.OriginalDateTime ≠ "" := by
  unfold Part000.GetJpegCreatedAt at *
  cases e with
  | missing => simp at h
  | corrupt => simp at h
  | tags ts =>
    simp only [] at h ⊢
    split at h
    · simp_all
    · split at h
      · simp_all
      · simpa using intDecimal_ne_empty _

/-- GetJpegCreatedAt of src/common/imagefileinfo.go touches only
OriginalDateTime. -/
theorem common_get_fields (x : ImageFileInfo) (e : ExifData) :
    (Common.GetJpegCreatedAt x e).1.FilePath = x.FilePath ∧
    (Common.GetJpegCreatedAt x e).1.MimeType = x.MimeType ∧
    (Common.GetJpegCreatedAt x e).1.MD5 = x.MD5 ∧
    (Common.GetJpegCreatedAt x e).1.FileName = x.FileName ∧
    (Common.GetJpegCreatedAt x e).1.Duplicates = x.Duplicates ∧
    (Common.GetJpegCreatedAt x e).1.HasExif = x.HasExif := by
  unfold Common.GetJpegCreatedAt
  cases e with
  | missing => simp
  | corrupt => simp
  | tags ts =>
    simp only []
    split <;> simp

/-- On an error the record of src/common/imagefileinfo.go GetJpegCreatedAt
is returned unchanged. -/
theorem common_get_err (x : ImageFileInfo) (e : ExifData) (err : ExifErr)
    (h : (Common.GetJpegCreatedAt x e).2 = some err) :
    (Common.GetJpegCreatedAt x e).1 = x := by
  unfold Common.GetJpegCreatedAt at *
  cases e with
  | missing => rfl
  | corrupt => rfl
  | tags ts =>
    simp only [] at h ⊢
    split at h
    · simp_all
    · simp_all

/-- On success the record of src/common/imagefileinfo.go GetJpegCreatedAt
carries a nonempty OriginalDateTime (the RFC3339 rendering). -/
theorem common_get_ok (x : ImageFileInfo) (e : ExifData)
    (h : (Common.GetJpegCreatedAt x e).2 = none) :
    (Common.GetJpegCreatedAt x e).1.OriginalDateTime ≠ "" := by
  unfold Common.GetJpegCreatedAt at *
  cases e with
  | missing => simp at h
  | corrupt => simp at h
  | tags ts =>
    simp only [] at h ⊢
    split at h
    · simp_all
    · simpa using rfc3339_ne_empty _

/-- Both SetFileName variants touch only FileName. -/
theorem part000_setFileName_fields (x : ImageFileInfo) :
    (Part000.SetFileName x).FilePath = x.FilePath ∧
    (Part000.SetFileName x).MimeType = x.MimeType ∧
    (Part000.SetFileName x).MD5 = x.MD5 ∧
    (Part000.SetFileName x).OriginalDateTime = x.OriginalDateTime ∧
    (Part000.SetFileName x).Duplicates = x.Duplicates ∧
    (Part000.SetFileName x).HasExif = x.HasExif := by
  unfold Part000.SetFileName
  split <;> simp

/-- The tag loop of src/unnamed/part_000 ignores non-matching tags. -/
theorem scanTags_append_nomatch (pre rest : List (String × String)) (acc : String)
    (hpre : ∀ t ∈ pre, isDateTag t.1 = false) :
    scanTags (pre ++ rest) acc = scanTags rest acc := by
  induction pre with
  | nil => rfl
  | cons t ts ih =>
    have ht : isDateTag t.1 = false := hpre t (List.mem_cons_self t ts)
    have hstep : scanTags ((t :: ts) ++ rest) acc = scanTags (ts ++ rest) acc := by
      rcases t with ⟨n, v⟩
      simp only [List.cons_append, scanTags]
      simp_all
    rw [hstep, ih (fun u hu => hpre u (List.mem_cons_of_mem t hu))]

/-- The last-wins fold of src/common/imagefileinfo.go ignores non-matching
tags. -/
theorem lastDateTag_fold_nomatch (ts : List (String × String)) (acc : String)
    (h : ∀ t ∈ ts, isDateTag t.1 = false) :
    ts.foldl (fun acc t => if isDateTag t.1 then t.2 else acc) acc = acc := by
  induction ts generalizing acc with
  | nil => rfl
  | cons t rest ih =>
    have ht : isDateTag t.1 = false := h t (List.mem_cons_self t rest)
    simp only [List.foldl_cons, ht, Bool.false_eq_true, if_false]
    exact ih acc (fun u hu => h u (List.mem_cons_of_mem t hu))


/-- The naming step of the second entry point preserves Duplicates, MD5 and
FilePath of the fresh record. -/
theorem main2Naming_preserves (fi : ImageFileInfo) (exif : ExifData) :
    (main2Naming fi exif).2.Duplicates = fi.Duplicates ∧
    (main2Naming fi exif).2.MD5 = fi.MD5 ∧
    (main2Naming fi exif).2.FilePath = fi.FilePath := by
  unfold main2Naming
  rcases hc : checkMetaTypes fi with ⟨b, fi0⟩
  have hc0 := checkMetaTypes_fields fi
  rw [hc] at hc0
  rcases b with _ | _
  · simp only [Bool.false_eq_true, if_false]
    have hs := part000_setFileName_fields fi0
    simp_all
  · simp only [if_true]
    rcases hg : (Part000.GetJpegCreatedAt fi0 exif).2 with _ | err
    · have hgf := part000_get_fields fi0 exif
      have hs := part000_setFileName_fields
        { (Part000.GetJpegCreatedAt fi0 exif).1 with HasExif := true }
      simp_all
    · have hgf := part000_get_fields fi0 exif
      have hs := part000_setFileName_fields
        { (Part000.GetJpegCreatedAt fi0 exif).1 with HasExif := false }
      simp_all

/-- A walk step over a not-ignored recognized file whose fingerprint is
absent from the store: the named record is stored and one copy is made. -/
theorem processFile_new (h : List Nat → String) (exifOf : List Nat → ExifData)
    (table : List (List Nat × String)) (outPath : String) (st : WalkState)
    (q : String) (c : List Nat) (m : String)
    (h1 : (IgnoreByName q).1 = false) (h2 : (IgnoreByExtension q).1 = false)
    (h3 : IsImage table q (.content c) = .ok true m)
    (h4 : lookupItems st.db.items (h c) = none) :
    processFile h exifOf table outPath st (q, c) =
      { db := (FastCache.Set st.db (h c)
          (main2Naming (NewImageFileInfo q m (h c)) (exifOf c)).2 (-1)),
        copies := (st.copies ++
          [(q, outPath ++ "/" ++ (main2Naming (NewImageFileInfo q m (h c)) (exifOf c)).1)]) } := by
  simp [processFile, h1, h2, h3, FastCache.Get, h4]

/-- A walk step over a not-ignored recognized file whose fingerprint is in
the store: only the duplicate counter of its record changes, nothing is
copied. -/
theorem processFile_dup (h : List Nat → String) (exifOf : List Nat → ExifData)
    (table : List (List Nat × String)) (outPath : String) (st : WalkState)
    (q : String) (c : List Nat) (r : ImageFileInfo)
    (h1 : (IgnoreByName q).1 = false) (h2 : (IgnoreByExtension q).1 = false)
    (h3 : recognizedBy table c = true)
    (h4 : lookupItems st.db.items (h c) = some (encodeImageFileInfo r)) :
    processFile h exifOf table outPath st (q, c) =
      { st with db := (FastCache.Set st.db (h c)
          { r with Duplicates := wrap32 (r.Duplicates + 1) } (-1)) } := by
  obtain ⟨m, hIs⟩ := IsImage_recognized table q c h3
  simp [processFile, h1, h2, hIs, FastCache.Get, h4, decodeInto_encode]

/-- Folding further identical-content files over a store holding exactly the
record of that content applies the wrapping int32 increment once per file
and makes no further copies. -/
theorem foldDups (h : List Nat → String) (exifOf : List Nat → ExifData)
    (table : List (List Nat × String)) (outPath pf : String)
    (cp : List (String × String)) (c : List Nat) (qs : List String)
    (r : ImageFileInfo)
    (hign : ∀ q ∈ qs, (IgnoreByName q).1 = false ∧ (IgnoreByExtension q).1 = false)
    (h3 : recognizedBy table c = true) :
    (qs.map (fun q => (q, c))).foldl (processFile h exifOf table outPath)
        ⟨⟨pf, [(h c, encodeImageFileInfo r)]⟩, cp⟩
      = ⟨⟨pf, [(h c, encodeImageFileInfo
            { r with Duplicates := incDuplicates^[qs.length] r.Duplicates })]⟩, cp⟩ := by
  induction qs generalizing r with
  | nil => simp
  | cons q qs ih =>
    have hq := hign q (List.mem_cons_self q qs)
    have hstep := processFile_dup h exifOf table outPath
      ⟨⟨pf, [(h c, encodeImageFileInfo r)]⟩, cp⟩ q c r hq.1 hq.2 h3
      (by simp [lookupItems])
    simp only [List.map_cons, List.foldl_cons, hstep]
    have hset : FastCache.Set (⟨pf, [(h c, encodeImageFileInfo r)]⟩ : FastCache) (h c)
        { r with Duplicates := wrap32 (r.Duplicates + 1) } (-1)
        = ⟨pf, [(h c, encodeImageFileInfo
            { r with Duplicates := wrap32 (r.Duplicates + 1) })]⟩ := by
      simp [FastCache.Set, setItems]
    simp only [hset]
    rw [ih { r with Duplicates := wrap32 (r.Duplicates + 1) }
      (fun u hu => hign u (List.mem_cons_of_mem q hu))]
    have harith : incDuplicates^[qs.length] (wrap32 (r.Duplicates + 1))
        = incDuplicates^[qs.length + 1] r.Duplicates := by
      rw [Function.iterate_succ_apply]
      rfl
    simp [harith]

/-- The wrap is the identity on int32 values that do not overflow. -/
theorem wrap32_eq_self (n : Int) (h0 : -2147483648 ≤ n) (h1 : n < 2147483648) :
    wrap32 n = n := by
  unfold wrap32
  omega

/-- Iterating the wrapping increment inside the int32 range adds the count. -/
theorem incDuplicates_iterate (k : Nat) (d : Int)
    (h0 : -2147483648 ≤ d) (h1 : d + k ≤ 2147483647) :
    incDuplicates^[k] d = d + k := by
  induction k generalizing d with
  | zero => simp
  | succ n ih =>
    rw [Function.iterate_succ_apply]
    have hstep : incDuplicates d = d + 1 := by
      unfold incDuplicates wrap32
      omega
    rw [hstep, ih (d + 1) (by omega) (by push_cast at h1 ⊢; omega)]
    push_cast
    ring

/-- Iterating the wrapping increment from zero to the int32 maximum and once
more wraps to the minimum. -/
theorem incDuplicates_iterate_top :
    incDuplicates^[2147483648] (0 : Int) = -2147483648 := by
  have h : (2147483648 : Nat) = 2147483647 + 1 := by norm_num
  rw [h, Function.iterate_succ_apply',
    incDuplicates_iterate 2147483647 0 (by norm_num) (by norm_num)]
  unfold incDuplicates wrap32
  omega


/-- The first file of a run: fresh store, so the record is created, named,
stored and copied. -/
theorem processFile_first (h : List Nat → String) (exifOf : List Nat → ExifData)
    (table : List (List Nat × String)) (outPath pf : String)
    (p : String) (c : List Nat) (m : String)
    (h1 : (IgnoreByName p).1 = false) (h2 : (IgnoreByExtension p).1 = false)
    (hIs : IsImage table p (.content c) = .ok true m) :
    processFile h exifOf table outPath ⟨⟨pf, []⟩, []⟩ (p, c) =
      ⟨⟨pf, [(h c, encodeImageFileInfo
          (main2Naming (NewImageFileInfo p m (h c)) (exifOf c)).2)]⟩,
       [(p, outPath ++ "/" ++ (main2Naming (NewImageFileInfo p m (h c)) (exifOf c)).1)]⟩ := by
  simp [processFile, h1, h2, hIs, FastCache.Get, FastCache.Set, lookupItems, setItems]

/-! ## Claim theorems -/

/-- C1 (amended): starting from an empty store, processing N files (N at
least 1, N-1 within the int32 range) with byte-identical recognized content
leaves exactly one record, stored under that content's fingerprint, whose
Duplicates count is N-1, and only the first of the files is copied to the
output directory. -/
theorem C1_duplicateCounting (h : List Nat → String) (exifOf : List Nat → ExifData)
    (table : List (List Nat × String)) (outPath pf : String)
    (c : List Nat) (p : String) (rest : List String)
    (hperm : table.Perm imageSignatures)
    (hign : ∀ q ∈ p :: rest, (IgnoreByName q).1 = false ∧ (IgnoreByExtension q).1 = false)
    (hrec : recognizedBy imageSignatures c = true)
    (hN : (rest.length : Int) ≤ 2147483647) :
    ∃ (r : ImageFileInfo) (out : String),
      ((p :: rest).map (fun q => (q, c))).foldl (processFile h exifOf table outPath)
          ⟨⟨pf, []⟩, []⟩
        = ⟨⟨pf, [(h c, encodeImageFileInfo r)]⟩, [(p, out)]⟩
      ∧ r.Duplicates = (rest.length : Int) ∧ r.MD5 = h c ∧ r.FilePath = p := by
  have h3 : recognizedBy table c = true := by
    rw [recognizedBy_perm hperm]
    exact hrec
  have hp := hign p (List.mem_cons_self p rest)
  obtain ⟨m, hIs⟩ := IsImage_recognized table p c h3
  have hpres := main2Naming_preserves (NewImageFileInfo p m (h c)) (exifOf c)
  refine ⟨{ (main2Naming (NewImageFileInfo p m (h c)) (exifOf c)).2 with
      Duplicates := incDuplicates^[rest.length]
        (main2Naming (NewImageFileInfo p m (h c)) (exifOf c)).2.Duplicates },
    outPath ++ "/" ++ (main2Naming (NewImageFileInfo p m (h c)) (exifOf c)).1,
    ?_, ?_, ?_, ?_⟩
  · rw [List.map_cons, List.foldl_cons,
      processFile_first h exifOf table outPath pf p c m hp.1 hp.2 hIs,
      foldDups h exifOf table outPath pf _ c rest _
        (fun u hu => hign u (List.mem_cons_of_mem p hu)) h3]
  · simp only [ImageFileInfo.Duplicates]
    rw [hpres.1]
    simp only [NewImageFileInfo]
    rw [incDuplicates_iterate rest.length 0 (by norm_num) (by omega)]
    omega
  · simp only [ImageFileInfo.MD5]
    rw [hpres.2.1]
    simp [NewImageFileInfo]
  · simp only [ImageFileInfo.FilePath]
    rw [hpres.2.2]
    simp [NewImageFileInfo]

/-- C9 (amended): on a duplicate hit of a stored record whose int32 count is
below the maximum, only the Duplicates field of the record changes,
incremented by exactly 1; all other fields of the record, all other records,
and the set of copied files are unchanged. -/
theorem C9_duplicateFrame (h : List Nat → String) (exifOf : List Nat → ExifData)
    (table : List (List Nat × String)) (outPath : String) (st : WalkState)
    (q : String) (c : List Nat) (r : ImageFileInfo)
    (h1 : (IgnoreByName q).1 = false) (h2 : (IgnoreByExtension q).1 = false)
    (h3 : recognizedBy table c = true)
    (h4 : lookupItems st.db.items (h c) = some (encodeImageFileInfo r))
    (hlo : -2147483648 ≤ r.Duplicates) (hhi : r.Duplicates < 2147483647) :
    (processFile h exifOf table outPath st (q, c)).copies = st.copies ∧
    FastCache.Get (processFile h exifOf table outPath st (q, c)).db (h c) zeroImageFileInfo
      = some { r with Duplicates := r.Duplicates + 1 } ∧
    ∀ k, k ≠ h c →
      lookupItems (processFile h exifOf table outPath st (q, c)).db.items k
        = lookupItems st.db.items k := by
  have hw : wrap32 (r.Duplicates + 1) = r.Duplicates + 1 :=
    wrap32_eq_self _ (by omega) (by omega)
  rw [processFile_dup h exifOf table outPath st q c r h1 h2 h3 h4]
  refine ⟨rfl, ?_, ?_⟩
  · simp [FastCache.Get, FastCache.Set, lookupItems_setItems_self, decodeInto_encode, hw]
  · intro k hk
    simp only [FastCache.Set]
    exact lookupItems_setItems_ne _ _ _ _ hk

/-- C4: loading the store from a missing durable file yields an empty store
and the orchestrating entry points do not treat it as a failure, while a
malformed durable file surfaces a decode error to the caller, which the
entry points treat as fatal. -/
theorem C4_loadTolerance (pf : String) :
    (NewPersistentCache pf .missing).1.items = [] ∧
    initDBFailed (NewPersistentCache pf .missing).2 = false ∧
    (NewPersistentCache pf .malformed).2 = some .decodeFailed ∧
    initDBFailed (NewPersistentCache pf .malformed).2 = true :=
  ⟨rfl, rfl, rfl, rfl⟩

/-- C8: persisting the store and loading the durable file into a fresh store
reproduces an identical record set: the same keys hold the same marshalled
records, every lookup agrees, and any record readable before the round trip
is readable afterwards with the same fingerprint, duplicate count and
filename. -/
theorem C8_persistRoundTrip (x : FastCache) (pf : String) :
    (NewPersistentCache pf x.Persist).1.items = x.items ∧
    (NewPersistentCache pf x.Persist).2 = none ∧
    (∀ key obj, FastCache.Get (NewPersistentCache pf x.Persist).1 key obj
        = FastCache.Get x key obj) ∧
    (∀ key obj r, FastCache.Get x key obj = some r →
      FastCache.Get (NewPersistentCache pf x.Persist).1 key obj = some r) :=
  ⟨rfl, rfl, fun _ _ => rfl, fun _ _ _ hr => hr⟩


/-- C2: a file whose leading bytes start with the eight PNG signature bytes
is recognized, as image/nef when the extension case-insensitively equals
".NEF" and as image/png for every other extension, in every iteration order
of the signature table. -/
theorem C2_pngNefTiebreak (table : List (List Nat × String)) (p : String) (c : List Nat)
    (hperm : table.Perm imageSignatures)
    (hpng : pngSignature.isPrefixOf c = true) :
    IsImage table p (.content c)
      = .ok true (if foldEq (goExt p) ".NEF" then "image/nef" else "image/png") := by
  obtain ⟨t, rfl⟩ := eq_append_of_isPrefixOf hpng
  have hpad : pad32 (pngSignature ++ t)
      = pngSignature ++ (t.take 24 ++ List.replicate (32 - (pngSignature ++ t).length) 0) := by
    simp [pad32, pngSignature]
  have hmatch : pngSignature.isPrefixOf (pad32 (pngSignature ++ t)) = true := by
    rw [hpad]
    exact isPrefixOf_append _ _
  have hmem : (pngSignature, "image/png") ∈ table := by
    apply hperm.mem_iff.mpr
    simp [imageSignatures, pngSignature]
  have huniq : ∀ b ∈ table, b.1.isPrefixOf (pad32 (pngSignature ++ t)) = true →
      b = (pngSignature, "image/png") := by
    intro b hb hbm
    have hb2 : b ∈ imageSignatures := hperm.mem_iff.mp hb
    rw [hpad] at hbm
    simp only [imageSignatures, List.mem_cons, List.not_mem_nil, or_false] at hb2
    rcases hb2 with rfl | rfl | rfl | rfl | rfl | rfl | rfl | rfl | rfl | rfl | rfl | rfl | rfl | rfl
    all_goals first
      | rfl
      | (exfalso; simp [pngSignature, List.isPrefixOf] at hbm)
  have hfind := find?_eq_of_unique hmem hmatch huniq
  simp [IsImage, hfind]

/-- C2 witness: a PNG-signature file with a lower-case NEF extension, and
the same bytes with a PNG extension, evaluated through the theorem. -/
theorem C2_witness :
    IsImage imageSignatures "shot.nef" (.content pngSignature)
      = .ok true (if foldEq (goExt "shot.nef") ".NEF" then "image/nef" else "image/png") :=
  C2_pngNefTiebreak imageSignatures "shot.nef" pngSignature (List.Perm.refl _) (by decide)

/-- C5 (amended): classification is insensitive to the signature-table
iteration order exactly on buffers matched by at most one table entry; two
runs whose map ranges produce different orders then classify alike. -/
theorem C5_deterministicWhenUnique (t1 t2 : List (List Nat × String)) (p : String)
    (c : List Nat)
    (h1 : t1.Perm imageSignatures) (h2 : t2.Perm imageSignatures)
    (huniq : ∀ e1 ∈ imageSignatures, ∀ e2 ∈ imageSignatures,
      e1.1.isPrefixOf (pad32 c) = true → e2.1.isPrefixOf (pad32 c) = true → e1 = e2) :
    IsImage t1 p (.content c) = IsImage t2 p (.content c) := by
  by_cases hex : ∃ e ∈ imageSignatures, e.1.isPrefixOf (pad32 c) = true
  · obtain ⟨e, he, hpe⟩ := hex
    have hf1 := find?_eq_of_unique (h1.mem_iff.mpr he) hpe
      (fun b hb hbp => huniq b (h1.mem_iff.mp hb) e he hbp hpe)
    have hf2 := find?_eq_of_unique (h2.mem_iff.mpr he) hpe
      (fun b hb hbp => huniq b (h2.mem_iff.mp hb) e he hbp hpe)
    simp [IsImage, hf1, hf2]
  · push_neg at hex
    have hf1 : t1.find? (fun e => e.1.isPrefixOf (pad32 c)) = none :=
      List.find?_eq_none.mpr (fun x hx => by simpa using hex x (h1.mem_iff.mp hx))
    have hf2 : t2.find? (fun e => e.1.isPrefixOf (pad32 c)) = none :=
      List.find?_eq_none.mpr (fun x hx => by simpa using hex x (h2.mem_iff.mp hx))
    simp [IsImage, hf1, hf2]

/-- C5 witness: a JPEG-signature buffer is matched by exactly one entry, so
the source order and the transposed order classify it identically. -/
theorem C5_witness :
    IsImage imageSignatures "a.jpg" (.content [0xFF, 0xD8, 0xFF])
      = IsImage imageSignaturesSwapped "a.jpg" (.content [0xFF, 0xD8, 0xFF]) :=
  C5_deterministicWhenUnique imageSignatures imageSignaturesSwapped "a.jpg"
    [0xFF, 0xD8, 0xFF] (List.Perm.refl _)
    (List.Perm.cons _ (List.Perm.cons _ (List.Perm.cons _ (List.Perm.cons _
      (List.Perm.cons _ (List.Perm.cons _ (List.Perm.cons _ (List.Perm.cons _
      (List.Perm.swap _ _ _)))))))))
    (by decide)

/-- C5 counterexample: the table is a Go map, so its range order is
unspecified; the buffer RIFF....WEBP is matched by both RIFF-prefixed
entries and two possible orders classify it differently, refuting
order-independent determinism. -/
theorem C5_counterexample :
    imageSignaturesSwapped.Perm imageSignatures ∧
    IsImage imageSignatures "clip.bin"
        (.content [0x52, 0x49, 0x46, 0x46, 0x2E, 0x2E, 0x2E, 0x2E, 0x57, 0x45, 0x42, 0x50])
      = .ok true "image/webp" ∧
    IsImage imageSignaturesSwapped "clip.bin"
        (.content [0x52, 0x49, 0x46, 0x46, 0x2E, 0x2E, 0x2E, 0x2E, 0x57, 0x45, 0x42, 0x50])
      = .ok true "video/x-msvideo" := by
  refine ⟨?_, by decide, by decide⟩
  refine List.Perm.cons _ (List.Perm.cons _ (List.Perm.cons _ (List.Perm.cons _
    (List.Perm.cons _ (List.Perm.cons _ (List.Perm.cons _ (List.Perm.cons _
    (List.Perm.swap _ _ _))))))))

/-- C6 (amended): a file shorter than the 32-byte probe whose zero-padded
probe buffer matches no signature classifies as not-recognized with no
error, and open or non-EOF read failures surface as errors. -/
theorem C6_shortFiles (table : List (List Nat × String)) (p : String) (c : List Nat)
    (_hperm : table.Perm imageSignatures)
    (_hshort : c.length < 32)
    (hnone : ∀ e ∈ table, e.1.isPrefixOf (pad32 c) = false) :
    IsImage table p (.content c) = .ok false "" ∧
    IsImage table p .readError = .err ∧
    IsImage table p .openError = .err := by
  refine ⟨?_, rfl, rfl⟩
  have hf : table.find? (fun e => e.1.isPrefixOf (pad32 c)) = none :=
    List.find?_eq_none.mpr (fun x hx => by simp [hnone x hx])
  simp [IsImage, hf]

/-- C6 witness: a three-byte file matching nothing even after padding. -/
theorem C6_witness :
    IsImage imageSignatures "tiny.bin" (.content [0x01, 0x02, 0x03]) = .ok false "" ∧
    IsImage imageSignatures "tiny.bin" .readError = .err ∧
    IsImage imageSignatures "tiny.bin" .openError = .err :=
  C6_shortFiles imageSignatures "tiny.bin" [0x01, 0x02, 0x03] (List.Perm.refl _)
    (by decide) (by decide)

/-- C6 counterexample: the three-byte file II* starts with no signature,
yet the zero-filled probe buffer completes the four-byte TIFF signature, so
the classifier reports it recognized as image/tiff instead of
not-recognized. -/
theorem C6_counterexample :
    ([0x49, 0x49, 0x2A] : List Nat).length < 32 ∧
    (imageSignatures.all (fun e => !(e.1.isPrefixOf [0x49, 0x49, 0x2A]))) = true ∧
    IsImage imageSignatures "short.bin" (.content [0x49, 0x49, 0x2A])
      = .ok true "image/tiff" :=
  ⟨by decide, by decide, by decide⟩


/-- C7: a capture-time tag holding the all-zeros sentinel makes timestamp
extraction fail in both variants, leaves OriginalDateTime empty, and yields
the same fallback filename as when no capture-time tag is present at all. -/
theorem C7_zeroSentinel (x : ImageFileInfo) (pre post : List (String × String)) (n : String)
    (hodt : x.OriginalDateTime = "")
    (hn : isDateTag n = true)
    (hpre : ∀ t ∈ pre, isDateTag t.1 = false)
    (hpost : ∀ t ∈ post, isDateTag t.1 = false) :
    Part000.GetJpegCreatedAt x (.tags (pre ++ (n, zeroSentinel) :: post))
      = (x, some .tagEmpty) ∧
    Common.GetJpegCreatedAt x (.tags (pre ++ (n, zeroSentinel) :: post))
      = (x, some .timeParseFailed) ∧
    Part000.GetJpegCreatedAt x (.tags (pre ++ post)) = (x, some .noTag) ∧
    (Part000.SetFileName
        (Part000.GetJpegCreatedAt x (.tags (pre ++ (n, zeroSentinel) :: post))).1).FileName
      = "0000000000" ++ "_" ++ x.MD5 ++ "_" ++ goBase x.FilePath ∧
    (Part000.SetFileName
        (Part000.GetJpegCreatedAt x (.tags (pre ++ (n, zeroSentinel) :: post))).1).FileName
      = (Part000.SetFileName (Part000.GetJpegCreatedAt x (.tags (pre ++ post))).1).FileName := by
  have hstrip : stripFirstNul zeroSentinel = zeroSentinel := by decide
  have hscan1 : scanTags (pre ++ (n, zeroSentinel) :: post) "" = .error .tagEmpty := by
    rw [scanTags_append_nomatch pre _ "" hpre]
    simp [scanTags, hn, hstrip]
  have h1 : Part000.GetJpegCreatedAt x (.tags (pre ++ (n, zeroSentinel) :: post))
      = (x, some .tagEmpty) := by
    simp [Part000.GetJpegCreatedAt, hscan1]
  have hscan2 : scanTags (pre ++ post) "" = .error .noTag := by
    rw [scanTags_append_nomatch pre post "" hpre]
    have h0 := scanTags_append_nomatch post [] "" hpost
    rw [List.append_nil] at h0
    rw [h0]
    rfl
  have h3 : Part000.GetJpegCreatedAt x (.tags (pre ++ post)) = (x, some .noTag) := by
    simp [Part000.GetJpegCreatedAt, hscan2]
  have hlast : lastDateTag (pre ++ (n, zeroSentinel) :: post) = zeroSentinel := by
    unfold lastDateTag
    rw [List.foldl_append, lastDateTag_fold_nomatch pre "" hpre, List.foldl_cons]
    simp only [hn, if_true]
    exact lastDateTag_fold_nomatch post zeroSentinel hpost
  have hparse : goTimeParse zeroSentinel = none := by decide
  have h2 : Common.GetJpegCreatedAt x (.tags (pre ++ (n, zeroSentinel) :: post))
      = (x, some .timeParseFailed) := by
    simp [Common.GetJpegCreatedAt, hlast, hparse]
  refine ⟨h1, h2, h3, ?_, ?_⟩
  · rw [h1]
    simp [Part000.SetFileName, hodt]
  · rw [h1, h3]

/-- C7 witness: a fresh JPEG record whose metadata holds one sentinel
capture-time tag among unrelated tags. -/
theorem C7_witness :
    Part000.GetJpegCreatedAt (NewImageFileInfo "d/a.jpg" "image/jpeg" "abc")
        (.tags [("Make", "Nikon"), ("DateTimeOriginal", zeroSentinel)])
      = (NewImageFileInfo "d/a.jpg" "image/jpeg" "abc", some .tagEmpty) ∧
    Common.GetJpegCreatedAt (NewImageFileInfo "d/a.jpg" "image/jpeg" "abc")
        (.tags [("Make", "Nikon"), ("DateTimeOriginal", zeroSentinel)])
      = (NewImageFileInfo "d/a.jpg" "image/jpeg" "abc", some .timeParseFailed) ∧
    Part000.GetJpegCreatedAt (NewImageFileInfo "d/a.jpg" "image/jpeg" "abc")
        (.tags [("Make", "Nikon")])
      = (NewImageFileInfo "d/a.jpg" "image/jpeg" "abc", some .noTag) ∧
    (Part000.SetFileName
        (Part000.GetJpegCreatedAt (NewImageFileInfo "d/a.jpg" "image/jpeg" "abc")
          (.tags [("Make", "Nikon"), ("DateTimeOriginal", zeroSentinel)])).1).FileName
      = "0000000000" ++ "_" ++ (NewImageFileInfo "d/a.jpg" "image/jpeg" "abc").MD5
        ++ "_" ++ goBase (NewImageFileInfo "d/a.jpg" "image/jpeg" "abc").FilePath ∧
    (Part000.SetFileName
        (Part000.GetJpegCreatedAt (NewImageFileInfo "d/a.jpg" "image/jpeg" "abc")
          (.tags [("Make", "Nikon"), ("DateTimeOriginal", zeroSentinel)])).1).FileName
      = (Part000.SetFileName
          (Part000.GetJpegCreatedAt (NewImageFileInfo "d/a.jpg" "image/jpeg" "abc")
            (.tags [("Make", "Nikon")])).1).FileName :=
  C7_zeroSentinel (NewImageFileInfo "d/a.jpg" "image/jpeg" "abc")
    [("Make", "Nikon")] [] "DateTimeOriginal" rfl (by decide)
    (by decide) (by decide)


/-- The filename formula of src/unnamed/part_000 SetFileName, by timestamp
presence. -/
theorem part000_setFileName_formula (x : ImageFileInfo) :
    (x.OriginalDateTime ≠ "" → (Part000.SetFileName x).FileName
      = x.OriginalDateTime ++ "_" ++ x.MD5 ++ "_" ++ goBase x.FilePath) ∧
    (x.OriginalDateTime = "" → (Part000.SetFileName x).FileName
      = "0000000000" ++ "_" ++ x.MD5 ++ "_" ++ goBase x.FilePath) := by
  unfold Part000.SetFileName
  split <;> simp_all

/-- The filename formula of src/common/imagefileinfo.go SetFileName. -/
theorem common_setFileName_formula (x : ImageFileInfo) :
    (x.OriginalDateTime ≠ "" → (Common.SetFileName x).FileName
      = x.OriginalDateTime ++ "_" ++ x.MD5 ++ "_" ++ goBase x.FilePath) ∧
    (x.OriginalDateTime = "" → (Common.SetFileName x).FileName
      = "unknown" ++ "_" ++ x.MD5 ++ "_" ++ goBase x.FilePath) := by
  unfold Common.SetFileName
  split <;> simp_all

/-- SetFileName of src/common/imagefileinfo.go touches only FileName. -/
theorem common_setFileName_fields (x : ImageFileInfo) :
    (Common.SetFileName x).FilePath = x.FilePath ∧
    (Common.SetFileName x).MimeType = x.MimeType ∧
    (Common.SetFileName x).MD5 = x.MD5 ∧
    (Common.SetFileName x).OriginalDateTime = x.OriginalDateTime ∧
    (Common.SetFileName x).Duplicates = x.Duplicates ∧
    (Common.SetFileName x).HasExif = x.HasExif := by
  unfold Common.SetFileName
  split <;> simp

/-- The second entry point always routes the fresh record through SetFileName
of src/unnamed/part_000, on a record keeping the fingerprint and source
path. -/
theorem main2Naming_eq (fi : ImageFileInfo) (exif : ExifData) :
    ∃ fi1, main2Naming fi exif = ((Part000.SetFileName fi1).FileName, Part000.SetFileName fi1)
      ∧ fi1.MD5 = fi.MD5 ∧ fi1.FilePath = fi.FilePath := by
  unfold main2Naming
  rcases hc : checkMetaTypes fi with ⟨b, fi0⟩
  have hc0 := checkMetaTypes_fields fi
  rw [hc] at hc0
  rcases b with _ | _
  · exact ⟨fi0, by simp, hc0.2.1, hc0.1⟩
  · simp only [if_true]
    rcases hg : (Part000.GetJpegCreatedAt fi0 exif).2 with _ | err
    · refine ⟨{ (Part000.GetJpegCreatedAt fi0 exif).1 with HasExif := true }, ?_, ?_, ?_⟩
      · simp [hg]
      · have := (part000_get_fields fi0 exif).2.2.1
        simp only [ImageFileInfo.MD5] at this ⊢
        rw [this, hc0.2.1]
      · have := (part000_get_fields fi0 exif).1
        simp only [ImageFileInfo.FilePath] at this ⊢
        rw [this, hc0.1]
    · refine ⟨{ (Part000.GetJpegCreatedAt fi0 exif).1 with HasExif := false }, ?_, ?_, ?_⟩
      · simp [hg]
      · have := (part000_get_fields fi0 exif).2.2.1
        simp only [ImageFileInfo.MD5] at this ⊢
        rw [this, hc0.2.1]
      · have := (part000_get_fields fi0 exif).1
        simp only [ImageFileInfo.FilePath] at this ⊢
        rw [this, hc0.1]

/-- C3 (amended): for a first-seen recognized file both entry points name a
timestamped file capture-timestamp_fingerprint_basename; without a
timestamp the second entry point uses the verbatim fallback token
0000000000_fingerprint_basename, while src/main.go (when it does not abort)
uses fingerprint_basename with no fallback token. -/
theorem C3_namingPolicy (p m md5 : String) (exif : ExifData) :
    ((main2Naming (NewImageFileInfo p m md5) exif).2.OriginalDateTime ≠ "" →
      (main2Naming (NewImageFileInfo p m md5) exif).1
        = (main2Naming (NewImageFileInfo p m md5) exif).2.OriginalDateTime
          ++ "_" ++ md5 ++ "_" ++ goBase p) ∧
    ((main2Naming (NewImageFileInfo p m md5) exif).2.OriginalDateTime = "" →
      (main2Naming (NewImageFileInfo p m md5) exif).1
        = "0000000000" ++ "_" ++ md5 ++ "_" ++ goBase p) ∧
    (∀ out fi1, main1Naming (NewImageFileInfo p m md5) exif = some (out, fi1) →
      (fi1.OriginalDateTime ≠ "" →
        out = fi1.OriginalDateTime ++ "_" ++ md5 ++ "_" ++ goBase p) ∧
      (fi1.OriginalDateTime = "" → out = md5 ++ "_" ++ goBase p)) := by
  obtain ⟨fi1, heq, hmd5, hpath⟩ := main2Naming_eq (NewImageFileInfo p m md5) exif
  have hFn := part000_setFileName_fields fi1
  have hform := part000_setFileName_formula fi1
  refine ⟨?_, ?_, ?_⟩
  · intro hne
    rw [heq] at hne ⊢
    simp only [] at hne ⊢
    rw [hFn.2.2.2.1] at hne
    rw [hform.1 hne, hFn.2.2.2.1, hmd5, hpath]
    simp [NewImageFileInfo]
  · intro he
    rw [heq] at he ⊢
    simp only [] at he ⊢
    rw [hFn.2.2.2.1] at he
    rw [hform.2 he, hmd5, hpath]
    simp [NewImageFileInfo]
  · intro out fi2 hmain
    unfold main1Naming at hmain
    rcases hc : checkMetaTypes (NewImageFileInfo p m md5) with ⟨b, fi0⟩
    rw [hc] at hmain
    have hc0 := checkMetaTypes_fields (NewImageFileInfo p m md5)
    rw [hc] at hc0
    simp only [NewImageFileInfo] at hc0
    rcases b with _ | _
    · simp only [Bool.false_eq_true, if_false, Option.some.injEq, Prod.mk.injEq] at hmain
      obtain ⟨hout, hfi⟩ := hmain
      subst hfi
      constructor
      · intro hne
        exact absurd hc0.2.2.2.1 hne
      · intro _
        rw [← hout, hc0.2.1, hc0.1]
    · simp only [if_true] at hmain
      rcases hg : (Common.GetJpegCreatedAt fi0 exif).2 with _ | err
      · rw [hg] at hmain
        simp only [Option.some.injEq, Prod.mk.injEq] at hmain
        obtain ⟨hout, hfi⟩ := hmain
        subst hfi
        have hodt : (Common.GetJpegCreatedAt fi0 exif).1.OriginalDateTime ≠ "" :=
          common_get_ok fi0 exif hg
        have hsf := common_setFileName_formula (Common.GetJpegCreatedAt fi0 exif).1
        have hsfF := common_setFileName_fields (Common.GetJpegCreatedAt fi0 exif).1
        have hgF := common_get_fields fi0 exif
        constructor
        · intro _
          rw [← hout]
          simp only [ImageFileInfo.FileName, ImageFileInfo.OriginalDateTime]
          rw [hsf.1 hodt, hsfF.2.2.2.1, hgF.2.2.1, hgF.1, hc0.2.1, hc0.1]
        · intro habs
          exfalso
          apply hodt
          rw [← hsfF.2.2.2.1]
          exact habs
      · rw [hg] at hmain
        have hg1 : (Common.GetJpegCreatedAt fi0 exif).1 = fi0 := common_get_err fi0 exif err hg
        rw [hg1] at hmain
        simp only [ImageFileInfo.IsNEF] at hmain
        rcases hfe : foldEq (goExt fi0.FilePath) ".NEF" with _ | _
        · rw [hfe] at hmain
          simp only [Bool.false_eq_true, if_false, Option.some.injEq, Prod.mk.injEq] at hmain
          obtain ⟨hout, hfi⟩ := hmain
          subst hfi
          constructor
          · intro hne
            exact absurd hc0.2.2.2.1 hne
          · intro _
            rw [← hout, hc0.2.1, hc0.1]
        · rw [hfe] at hmain
          simp at hmain
  
/-- C3 counterexample: a first-seen GIF file processed by src/main.go is
copied under fingerprint_basename with no fallback token, not under
token_fingerprint_basename for either fallback token found in the
repository. -/
theorem C3_counterexample :
    main1Naming (NewImageFileInfo "d/g.gif" "image/gif" "abc") .missing
      = some ("abc_g.gif", NewImageFileInfo "d/g.gif" "image/gif" "abc") ∧
    "abc_g.gif" ≠ "0000000000" ++ "_" ++ "abc" ++ "_" ++ "g.gif" ∧
    "abc_g.gif" ≠ "unknown" ++ "_" ++ "abc" ++ "_" ++ "g.gif" :=
  ⟨by decide, by decide, by decide⟩

/-- C3 witness: a JPEG with a valid capture time through the second entry
point, evaluated through the amended theorem. -/
theorem C3_witness :
    ((main2Naming (NewImageFileInfo "d/a.jpg" "image/jpeg" "abc")
        (.tags [("DateTimeOriginal", "2006:01:02 15:04:05")])).2.OriginalDateTime ≠ "" →
      (main2Naming (NewImageFileInfo "d/a.jpg" "image/jpeg" "abc")
        (.tags [("DateTimeOriginal", "2006:01:02 15:04:05")])).1
        = (main2Naming (NewImageFileInfo "d/a.jpg" "image/jpeg" "abc")
            (.tags [("DateTimeOriginal", "2006:01:02 15:04:05")])).2.OriginalDateTime
          ++ "_" ++ "abc" ++ "_" ++ goBase "d/a.jpg") ∧
    ((main2Naming (NewImageFileInfo "d/a.jpg" "image/jpeg" "abc")
        (.tags [("DateTimeOriginal", "2006:01:02 15:04:05")])).2.OriginalDateTime = "" →
      (main2Naming (NewImageFileInfo "d/a.jpg" "image/jpeg" "abc")
        (.tags [("DateTimeOriginal", "2006:01:02 15:04:05")])).1
        = "0000000000" ++ "_" ++ "abc" ++ "_" ++ goBase "d/a.jpg") ∧
    (∀ out fi1, main1Naming (NewImageFileInfo "d/a.jpg" "image/jpeg" "abc")
        (.tags [("DateTimeOriginal", "2006:01:02 15:04:05")]) = some (out, fi1) →
      (fi1.OriginalDateTime ≠ "" →
        out = fi1.OriginalDateTime ++ "_" ++ "abc" ++ "_" ++ goBase "d/a.jpg") ∧
      (fi1.OriginalDateTime = "" → out = "abc" ++ "_" ++ goBase "d/a.jpg")) :=
  C3_namingPolicy "d/a.jpg" "image/jpeg" "abc"
    (.tags [("DateTimeOriginal", "2006:01:02 15:04:05")])


/-- The second entry point's naming never changes MimeType after the type
checks ran. -/
theorem main2Naming_mime (fi : ImageFileInfo) (exif : ExifData) :
    (main2Naming fi exif).2.MimeType = (checkMetaTypes fi).2.MimeType := by
  unfold main2Naming
  rcases hc : checkMetaTypes fi with ⟨b, fi0⟩
  rcases b with _ | _
  · simp only [Bool.false_eq_true, if_false]
    exact (part000_setFileName_fields fi0).2.1
  · simp only [if_true]
    split
    · exact ((part000_setFileName_fields _).2.1).trans ((part000_get_fields fi0 exif).2.1)
    · exact ((part000_setFileName_fields _).2.1).trans ((part000_get_fields fi0 exif).2.1)

/-- On a non-JPEG record with a .NEF extension the IsNEF check overwrites
MimeType. -/
theorem checkMetaTypes_nef (fi : ImageFileInfo) (hm : fi.MimeType ≠ "image/jpeg")
    (hext : foldEq (goExt fi.FilePath) ".NEF" = true) :
    (checkMetaTypes fi).2.MimeType = "image/nef" := by
  unfold checkMetaTypes ImageFileInfo.IsJPEG ImageFileInfo.IsNEF
  simp [hm, hext]

/-- On a non-JPEG record with a .HEIC extension the IsHEIC check overwrites
MimeType. -/
theorem checkMetaTypes_heic (fi : ImageFileInfo) (hm : fi.MimeType ≠ "image/jpeg")
    (hext : foldEq (goExt fi.FilePath) ".HEIC" = true) :
    (checkMetaTypes fi).2.MimeType = "image/heic" := by
  have hnef : foldEq (goExt fi.FilePath) ".NEF" = false := by
    rcases hN : foldEq (goExt fi.FilePath) ".NEF" with _ | _
    · rfl
    · exfalso
      simp only [foldEq, decide_eq_true_eq] at hext hN
      exact absurd (hext.symm.trans hN) (by decide)
  unfold checkMetaTypes ImageFileInfo.IsJPEG ImageFileInfo.IsNEF ImageFileInfo.IsHEIC
  simp [hm, hext, hnef]

/-- C10: a first-seen file recognized with a MIME type other than image/jpeg
whose extension folds to .NEF or .HEIC is stored with MimeType overwritten
to image/nef or image/heic, replacing the signature-derived type. -/
theorem C10_extensionOverride (h : List Nat → String) (exifOf : List Nat → ExifData)
    (table : List (List Nat × String)) (outPath : String) (st : WalkState)
    (q : String) (c : List Nat) (m : String)
    (h1 : (IgnoreByName q).1 = false) (h2 : (IgnoreByExtension q).1 = false)
    (h3 : IsImage table q (.content c) = .ok true m)
    (hm : m ≠ "image/jpeg")
    (h4 : lookupItems st.db.items (h c) = none) :
    (foldEq (goExt q) ".NEF" = true →
      (FastCache.Get (processFile h exifOf table outPath st (q, c)).db (h c)
          zeroImageFileInfo).map ImageFileInfo.MimeType = some "image/nef") ∧
    (foldEq (goExt q) ".HEIC" = true →
      (FastCache.Get (processFile h exifOf table outPath st (q, c)).db (h c)
          zeroImageFileInfo).map ImageFileInfo.MimeType = some "image/heic") := by
  rw [processFile_new h exifOf table outPath st q c m h1 h2 h3 h4]
  have hget : FastCache.Get (FastCache.Set st.db (h c)
        (main2Naming (NewImageFileInfo q m (h c)) (exifOf c)).2 (-1))
      (h c) zeroImageFileInfo
      = some (main2Naming (NewImageFileInfo q m (h c)) (exifOf c)).2 := by
    simp [FastCache.Get, FastCache.Set, lookupItems_setItems_self, decodeInto_encode]
  constructor
  · intro hext
    rw [hget, Option.map_some']
    rw [main2Naming_mime, checkMetaTypes_nef _ hm hext]
  · intro hext
    rw [hget, Option.map_some']
    rw [main2Naming_mime, checkMetaTypes_heic _ hm hext]

/-- C10 witness: a GIF-signature file named with a .NEF extension is stored
as image/nef. -/
theorem C10_witness :
    (foldEq (goExt "x.NEF") ".NEF" = true →
      (FastCache.Get (processFile (fun _ => "abc") (fun _ => ExifData.missing)
          imageSignatures "originals" ⟨⟨"photoz.db", []⟩, []⟩
          ("x.NEF", [0x47, 0x49, 0x46, 0x38, 0x37, 0x61])).db ((fun _ => "abc") [0x47, 0x49, 0x46, 0x38, 0x37, 0x61])
          zeroImageFileInfo).map ImageFileInfo.MimeType = some "image/nef") ∧
    (foldEq (goExt "x.NEF") ".HEIC" = true →
      (FastCache.Get (processFile (fun _ => "abc") (fun _ => ExifData.missing)
          imageSignatures "originals" ⟨⟨"photoz.db", []⟩, []⟩
          ("x.NEF", [0x47, 0x49, 0x46, 0x38, 0x37, 0x61])).db ((fun _ => "abc") [0x47, 0x49, 0x46, 0x38, 0x37, 0x61])
          zeroImageFileInfo).map ImageFileInfo.MimeType = some "image/heic") :=
  C10_extensionOverride (fun _ => "abc") (fun _ => ExifData.missing)
    imageSignatures "originals" ⟨⟨"photoz.db", []⟩, []⟩
    "x.NEF" [0x47, 0x49, 0x46, 0x38, 0x37, 0x61] "image/gif"
    (by decide) (by decide) (by decide) (by decide) rfl

/-- C1 witness: two identical GIF files from an empty store. -/
theorem C1_witness :
    ∃ (r : ImageFileInfo) (out : String),
      (["a.gif", "b.gif"].map (fun q => (q, ([0x47, 0x49, 0x46, 0x38, 0x37, 0x61] : List Nat)))).foldl
          (processFile (fun _ => "abc") (fun _ => ExifData.missing) imageSignatures "originals")
          ⟨⟨"photoz.db", []⟩, []⟩
        = ⟨⟨"photoz.db", [((fun _ => "abc") ([0x47, 0x49, 0x46, 0x38, 0x37, 0x61] : List Nat),
            encodeImageFileInfo r)]⟩, [("a.gif", out)]⟩
      ∧ r.Duplicates = ((["b.gif"] : List String).length : Int)
      ∧ r.MD5 = (fun _ => "abc") ([0x47, 0x49, 0x46, 0x38, 0x37, 0x61] : List Nat)
      ∧ r.FilePath = "a.gif" :=
  C1_duplicateCounting (fun _ => "abc") (fun _ => ExifData.missing)
    imageSignatures "originals" "photoz.db"
    [0x47, 0x49, 0x46, 0x38, 0x37, 0x61] "a.gif" ["b.gif"]
    (List.Perm.refl _) (by decide) (by decide) (by decide)

/-- C9 witness: a second GIF file with the fingerprint already stored. -/
theorem C9_witness :
    (processFile (fun _ => "abc") (fun _ => ExifData.missing) imageSignatures "originals"
        ⟨⟨"photoz.db", [("abc", encodeImageFileInfo (NewImageFileInfo "a.gif" "image/gif" "abc"))]⟩, []⟩
        ("b.gif", [0x47, 0x49, 0x46, 0x38, 0x37, 0x61])).copies = [] ∧
    FastCache.Get (processFile (fun _ => "abc") (fun _ => ExifData.missing) imageSignatures
        "originals"
        ⟨⟨"photoz.db", [("abc", encodeImageFileInfo (NewImageFileInfo "a.gif" "image/gif" "abc"))]⟩, []⟩
        ("b.gif", [0x47, 0x49, 0x46, 0x38, 0x37, 0x61])).db
        ((fun _ => "abc") ([0x47, 0x49, 0x46, 0x38, 0x37, 0x61] : List Nat)) zeroImageFileInfo
      = some { NewImageFileInfo "a.gif" "image/gif" "abc" with
          Duplicates := (NewImageFileInfo "a.gif" "image/gif" "abc").Duplicates + 1 } ∧
    ∀ k, k ≠ (fun _ => "abc") ([0x47, 0x49, 0x46, 0x38, 0x37, 0x61] : List Nat) →
      lookupItems (processFile (fun _ => "abc") (fun _ => ExifData.missing) imageSignatures
          "originals"
          ⟨⟨"photoz.db", [("abc", encodeImageFileInfo (NewImageFileInfo "a.gif" "image/gif" "abc"))]⟩, []⟩
          ("b.gif", [0x47, 0x49, 0x46, 0x38, 0x37, 0x61])).db.items k
        = lookupItems [("abc", encodeImageFileInfo (NewImageFileInfo "a.gif" "image/gif" "abc"))] k :=
  C9_duplicateFrame (fun _ => "abc") (fun _ => ExifData.missing) imageSignatures "originals"
    ⟨⟨"photoz.db", [("abc", encodeImageFileInfo (NewImageFileInfo "a.gif" "image/gif" "abc"))]⟩, []⟩
    "b.gif" [0x47, 0x49, 0x46, 0x38, 0x37, 0x61] (NewImageFileInfo "a.gif" "image/gif" "abc")
    (by decide) (by decide) (by decide) rfl (by decide) (by decide)

/-- C8 witness: a one-record store read back identically after the round
trip. -/
theorem C8_witness :
    FastCache.Get (NewPersistentCache "photoz.db"
        (FastCache.Persist ⟨"photoz.db",
          [("abc", encodeImageFileInfo (NewImageFileInfo "x/a.gif" "image/gif" "abc"))]⟩)).1
        "abc" zeroImageFileInfo
      = FastCache.Get (⟨"photoz.db",
          [("abc", encodeImageFileInfo (NewImageFileInfo "x/a.gif" "image/gif" "abc"))]⟩ : FastCache)
        "abc" zeroImageFileInfo :=
  (C8_persistRoundTrip ⟨"photoz.db",
    [("abc", encodeImageFileInfo (NewImageFileInfo "x/a.gif" "image/gif" "abc"))]⟩
    "photoz.db").2.2.1 "abc" zeroImageFileInfo


/-- C9 counterexample: at the stored count 2147483647 the int32 increment of
the duplicate branch wraps, so the record is stored with Duplicates
-2147483648, not with the count incremented by exactly 1. -/
theorem C9_counterexample :
    FastCache.Get (processFile (fun _ => "abc") (fun _ => ExifData.missing) imageSignatures
        "originals"
        ⟨⟨"photoz.db", [("abc", encodeImageFileInfo
          { FilePath := "a.gif", MimeType := "image/gif", MD5 := "abc", FileName := "",
            OriginalDateTime := "", Duplicates := 2147483647, HasExif := false })]⟩, []⟩
        ("b.gif", [0x47, 0x49, 0x46, 0x38, 0x37, 0x61])).db
        "abc" zeroImageFileInfo
      = some
        ({ FilePath := "a.gif", MimeType := "image/gif", MD5 := "abc", FileName := "",
           OriginalDateTime := "", Duplicates := -2147483648, HasExif := false } : ImageFileInfo) ∧
    (-2147483648 : Int) ≠ 2147483647 + 1 := by
  refine ⟨?_, by decide⟩
  rw [processFile_dup (fun _ => "abc") (fun _ => ExifData.missing) imageSignatures "originals"
    ⟨⟨"photoz.db", [("abc", encodeImageFileInfo
      { FilePath := "a.gif", MimeType := "image/gif", MD5 := "abc", FileName := "",
        OriginalDateTime := "", Duplicates := 2147483647, HasExif := false })]⟩, []⟩
    "b.gif" [0x47, 0x49, 0x46, 0x38, 0x37, 0x61]
    ({ FilePath := "a.gif", MimeType := "image/gif", MD5 := "abc", FileName := "",
       OriginalDateTime := "", Duplicates := 2147483647, HasExif := false } : ImageFileInfo)
    (by decide) (by decide) (by decide) rfl]
  simp only [FastCache.Set]
  simp [FastCache.Get, lookupItems_setItems_self, decodeInto_encode]
  decide

/-- C1 counterexample: processing 2147483649 byte-identical GIF files from an
empty store leaves the single record with the wrapped int32 count
-2147483648, not with Duplicates equal to N-1 = 2147483648. -/
theorem C1_counterexample :
    ((("a.gif" :: List.replicate 2147483648 "b.gif").map
        (fun q => (q, ([0x47, 0x49, 0x46, 0x38, 0x37, 0x61] : List Nat)))).foldl
        (processFile (fun _ => "abc") (fun _ => ExifData.missing) imageSignatures "originals")
        ⟨⟨"photoz.db", []⟩, []⟩).db.items
      = [("abc", encodeImageFileInfo
          { FilePath := "a.gif", MimeType := "image/gif", MD5 := "abc",
            FileName := "0000000000_abc_a.gif", OriginalDateTime := "",
            Duplicates := -2147483648, HasExif := false })] ∧
    ((-2147483648 : Int)
      ≠ ((("a.gif" :: List.replicate 2147483648 "b.gif").length : Int) - 1)) := by
  constructor
  · rw [List.map_cons, List.foldl_cons,
      processFile_first (fun _ => "abc") (fun _ => ExifData.missing) imageSignatures
        "originals" "photoz.db" "a.gif" [0x47, 0x49, 0x46, 0x38, 0x37, 0x61] "image/gif"
        (by decide) (by decide) (by decide),
      foldDups (fun _ => "abc") (fun _ => ExifData.missing) imageSignatures "originals"
        "photoz.db" _ [0x47, 0x49, 0x46, 0x38, 0x37, 0x61] (List.replicate 2147483648 "b.gif") _
        (fun q hq => by rw [List.eq_of_mem_replicate hq]; exact ⟨by decide, by decide⟩)
        (by decide)]
    have hr0d : (main2Naming (NewImageFileInfo "a.gif" "image/gif"
        ((fun _ => "abc") ([0x47, 0x49, 0x46, 0x38, 0x37, 0x61] : List Nat)))
        ((fun _ => ExifData.missing)
          ([0x47, 0x49, 0x46, 0x38, 0x37, 0x61] : List Nat))).2.Duplicates = 0 := by decide
    have hiter : incDuplicates^[(List.replicate 2147483648 "b.gif").length]
        (main2Naming (NewImageFileInfo "a.gif" "image/gif"
          ((fun _ => "abc") ([0x47, 0x49, 0x46, 0x38, 0x37, 0x61] : List Nat)))
          ((fun _ => ExifData.missing)
            ([0x47, 0x49, 0x46, 0x38, 0x37, 0x61] : List Nat))).2.Duplicates
        = -2147483648 := by
      rw [hr0d, List.length_replicate]
      exact incDuplicates_iterate_top
    have hd : (main2Naming (NewImageFileInfo "a.gif" "image/gif"
        ((fun _ => "abc") ([0x47, 0x49, 0x46, 0x38, 0x37, 0x61] : List Nat)))
        ((fun _ => ExifData.missing) ([0x47, 0x49, 0x46, 0x38, 0x37, 0x61] : List Nat))).2
        = { FilePath := "a.gif", MimeType := "image/gif", MD5 := "abc",
            FileName := "0000000000_abc_a.gif", OriginalDateTime := "",
            Duplicates := 0, HasExif := false } := by decide
    rw [hiter, hd]
  · have hlen : ("a.gif" :: List.replicate 2147483648 "b.gif").length = 2147483649 := by
      rw [List.length_cons, List.length_replicate]
    rw [hlen]
    norm_num

end Photoz
